import Mathlib

/-!
Shallow embedding of the gobbledegook Bluetooth Management adapter core
(src/HciAdapter.h and src/Mgmt.cpp): the wire codec for the frame header and
event shapes, the command-frame builders of the Mgmt facade, and the command
correlator.  Bytes are modelled as natural numbers (values < 256 where the
source guarantees it), buffers as lists of bytes, and every fallible decode
as an Option.
-/

namespace GGK

/-! ## Constants from HciAdapter.h -/

-- HciAdapter.h line 50
def kMaxEventWaitTimeMS : Nat := 1000

-- HciAdapter.h line 53
def kNonController : Nat := 0xffff

-- HciAdapter.h lines 56-67: declared sizes of the static name tables
def kMinCommandCode : Nat := 0x0001
def kMaxCommandCode : Nat := 0x0043
def kMinEventType : Nat := 0x0001
def kMaxEventType : Nat := 0x0025
def kMinStatusCode : Nat := 0x00
def kMaxStatusCode : Nat := 0x14

/-! ## Wire codec: frame header (HciAdapter.h lines 142-171)

The header is three packed u16 fields `code, controllerId, dataSize`,
little-endian on the wire (`toNetwork` / `toHost` convert each field with the
endian helpers; the wire order is little-endian per the management protocol).
We model the encoded form directly as the 6 wire bytes. -/

structure HciHeader where
  code : Nat
  controllerId : Nat
  dataSize : Nat
deriving Repr, DecidableEq

-- Little-endian serialization of a u16 value
def u16le (v : Nat) : List Nat := [v % 256, v / 256 % 256]

-- Little-endian serialization of a u32 value
def u32le (v : Nat) : List Nat :=
  [v % 256, v / 256 % 256, v / 65536 % 256, v / 16777216 % 256]

/-- Modelled from the spec: the endian conversion helpers (Utils::endianToHci /
endianToHost, declared in Utils.h which is not part of the three source files)
put each u16 field on the wire in little-endian byte order; the header is the
three fields in order `code, controllerId, dataSize`, 6 bytes, no padding. -/
def encodeHciHeader (h : HciHeader) : List Nat :=
  u16le h.code ++ u16le h.controllerId ++ u16le h.dataSize

-- A single byte read at offset i; none when the offset is past the buffer end.
def byteAt (data : List Nat) (i : Nat) : Option Nat := data.get? i

def readU16le (data : List Nat) (i : Nat) : Option Nat := do
  let lo ← byteAt data i
  let hi ← byteAt data (i + 1)
  pure (lo + 256 * hi)

def readU32le (data : List Nat) (i : Nat) : Option Nat := do
  let b0 ← byteAt data i
  let b1 ← byteAt data (i + 1)
  let b2 ← byteAt data (i + 2)
  let b3 ← byteAt data (i + 3)
  pure (b0 + 256 * b1 + 65536 * b2 + 16777216 * b3)

def readBytes (data : List Nat) (i n : Nat) : Option (List Nat) :=
  (List.range n).mapM (fun k => byteAt data (i + k))

/-- Decoding the 6 header bytes back to host order. -/
def decodeHciHeader (data : List Nat) : Option HciHeader := do
  let c ← readU16le data 0
  let ci ← readU16le data 2
  let ds ← readU16le data 4
  pure ⟨c, ci, ds⟩

/-! ## Event decodes (HciAdapter.h lines 317-450)

Each event constructor performs
`*this = *reinterpret_cast<const Event *>(data.data())` with no length
validation: it unconditionally copies `sizeof(Event)` bytes starting at the
buffer's first byte.  We model that copy as the sequence of byte reads at the
fixed offsets of the packed struct; a read at an offset past the end of the
buffer (`none` here) is, in the C++, an out-of-bounds read -- there is no
error return at all, the constructor cannot fail. -/

structure CommandCompleteEvent where
  header : HciHeader
  commandCode : Nat
  status : Nat
deriving Repr, DecidableEq

-- Packed layout: header 0..5, commandCode u16 at 6, status u8 at 8 (9 bytes).
def decodeCommandCompleteEvent (data : List Nat) : Option CommandCompleteEvent := do
  let h ← decodeHciHeader data
  let cc ← readU16le data 6
  let st ← byteAt data 8
  pure ⟨h, cc, st⟩

structure DeviceConnectedEvent where
  header : HciHeader
  address : List Nat
  addressType : Nat
  flags : Nat
  eirDataLength : Nat
deriving Repr, DecidableEq

-- Packed layout: header 0..5, address 6..11, addressType u8 at 12,
-- flags u32 at 13, eirDataLength u16 at 17 (19 bytes).
def decodeDeviceConnectedEvent (data : List Nat) : Option DeviceConnectedEvent := do
  let h ← decodeHciHeader data
  let addr ← readBytes data 6 6
  let at0 ← byteAt data 12
  let fl ← readU32le data 13
  let eir ← readU16le data 17
  pure ⟨h, addr, at0, fl, eir⟩

/-! ## Theorems: wire codec claims -/

/-- Claim C1: the spec demands that decoding a buffer shorter than the fixed
size of the target event frame shape yield a MalformedFrame error without
reading past the end of the buffer.  The source constructors perform an
unchecked fixed-size copy instead: the decode of CommandCompleteEvent demands
all 9 fixed-layout bytes (and DeviceConnectedEvent all 19) for every input, so
on a 3-byte buffer the copy reaches offset 8 -- past the buffer's end -- and
no error value exists anywhere in the code.  This theorem records the
footprint: the short buffers force reads past the end (`none`), while buffers
of exactly the fixed size decode unconditionally, with no validation of any
kind. -/
theorem commandCompleteEvent_unchecked_copy :
    decodeCommandCompleteEvent (List.replicate 3 0) = none
    ∧ decodeDeviceConnectedEvent (List.replicate 18 0) = none
    ∧ decodeCommandCompleteEvent (List.replicate 9 0) = some ⟨⟨0, 0, 0⟩, 0, 0⟩
    ∧ decodeDeviceConnectedEvent (List.replicate 19 0) =
        some ⟨⟨0, 0, 0⟩, List.replicate 6 0, 0, 0, 0⟩ := by
  refine ⟨?_, ?_, ?_, ?_⟩ <;> decide

/-- Claim C2: for every triple of 16-bit values, encoding the frame header to
wire order (three little-endian u16 fields) and decoding it back yields the
original `code`, `controllerIndex` and `payloadLength`. -/
theorem hciHeader_roundtrip (code ci ds : Nat)
    (hc : code < 65536) (hi : ci < 65536) (hd : ds < 65536) :
    decodeHciHeader (encodeHciHeader ⟨code, ci, ds⟩) = some ⟨code, ci, ds⟩ := by
  simp only [encodeHciHeader, u16le, decodeHciHeader, readU16le, byteAt,
    List.cons_append, List.nil_append, List.get?, Option.bind_eq_bind,
    Option.some_bind, Option.pure_def]
  refine congrArg some ?_
  refine congrArg₂ (fun a b => HciHeader.mk a b.1 b.2) ?_ (congrArg₂ Prod.mk ?_ ?_) <;> omega

/-- Witness for C2 at a concrete header. -/
theorem hciHeader_roundtrip_witness :
    decodeHciHeader (encodeHciHeader ⟨0x0001, 0xffff, 6⟩) = some ⟨0x0001, 0xffff, 6⟩ :=
  hciHeader_roundtrip 0x0001 0xffff 6 (by decide) (by decide) (by decide)

/-! ## Debug-text name lookup (HciAdapter.h lines 162-170, 344-354)

`HciHeader::debugText` renders the command name as
`HciAdapter::kCommandCodeNames[code]` and `CommandCompleteEvent::debugText`
renders `kEventTypeNames[header.code]` and `kCommandCodeNames[commandCode]`:
a direct array index with the raw 16-bit code, no range check.  The tables are
declared in the header with exact sizes `kMaxCommandCode + 1`,
`kMaxEventType + 1` and `kMaxStatusCode + 1`.  We model the raw index as a
list lookup: `none` means the C++ access reads outside the table. -/

def debugNameLookup (table : List String) (code : Nat) : Option String :=
  table.get? code

/-- Counterexample to claim C7: with any table of the declared size
`kMaxCommandCode + 1 = 0x44`, rendering the name for command code 0x0044 (one
past the documented range) accesses the index 0x44 outside the table: no
entry is consulted and no "unknown/reserved" fallback string is produced --
in the C++ this is a read past the end of the static array. -/
theorem debugNameLookup_out_of_range :
    debugNameLookup (List.replicate (kMaxCommandCode + 1) "unknown") 0x0044 = none := by
  decide

/-- Claim C7 amended: the debug rendering indexes the static name tables
directly with the raw code value and performs no range check: a code within
the declared table size returns that table entry, while any code at or beyond
the table size reads outside the table, producing no fallback string.  Stated
for an arbitrary table, so it covers the command, event and status tables
alike. -/
theorem debugNameLookup_raw_index (table : List String) (code : Nat) :
    (code < table.length → debugNameLookup table code = table.get? code
        ∧ (debugNameLookup table code).isSome = true)
    ∧ (table.length ≤ code → debugNameLookup table code = none) := by
  constructor
  · intro h
    refine ⟨rfl, ?_⟩
    show (table.get? code).isSome = true
    rw [List.get?_eq_get h]
    rfl
  · intro h
    show table.get? code = none
    exact List.get?_eq_none.mpr h

/-- Witness for the amended C7 at the command table's declared size: code 3 is
inside the table and found; code 0x44 is outside and the access leaves the
table. -/
theorem debugNameLookup_raw_index_witness :
    (debugNameLookup (List.replicate (kMaxCommandCode + 1) "n") 3).isSome = true
    ∧ debugNameLookup (List.replicate (kMaxCommandCode + 1) "n") 0x0044 = none :=
  ⟨((debugNameLookup_raw_index (List.replicate (kMaxCommandCode + 1) "n") 3).1
      (by decide)).2,
   (debugNameLookup_raw_index (List.replicate (kMaxCommandCode + 1) "n") 0x0044).2
      (by decide)⟩

/-! ## Command correlator (spec 4.3, 4.4, 7; HciAdapter.h lines 1241-1263)

`sendCommand` and `waitForCommandResponse` are declared in HciAdapter.h but
their bodies live in HciAdapter.cpp, which is not among the source files, so
the correlator is modelled from the spec. -/

inductive CorrelatorState where
  | idle : CorrelatorState
  | awaiting (code deadline : Nat) : CorrelatorState
deriving Repr, DecidableEq

/-- A command-acknowledging event (CommandComplete / CommandStatus) as seen by
the correlator: its arrival time, the embedded command code and the status. -/
structure AckEvent where
  arrivalMS : Nat
  commandCode : Nat
  status : Nat
deriving Repr, DecidableEq

def ackMatches (code deadline : Nat) (e : AckEvent) : Bool :=
  e.commandCode == code && e.arrivalMS ≤ deadline

def acceptsCommand : CorrelatorState → Bool
  | .idle => true
  | .awaiting _ _ => false

/-- Modelled from the spec: the body of HciAdapter::sendCommand /
waitForCommandResponse (HciAdapter.cpp, not among the source files).  Per
spec 4.3: from Idle the command is transmitted and the caller waits, until
either a CommandComplete/CommandStatus whose embedded command code equals the
request's code arrives within `kMaxEventWaitTimeMS` (success iff its status
is 0), or the deadline elapses (failure); on any outcome the state is back to
Idle before returning.  `events` is the stream of command-acknowledging
events the Event Reader delivers, with arrival times. -/
def sendCommandModel (s : CorrelatorState) (code now : Nat) (events : List AckEvent) :
    Bool × CorrelatorState :=
  match s with
  | .awaiting c d => (false, .awaiting c d)
  | .idle =>
    match events.find? (ackMatches code (now + kMaxEventWaitTimeMS)) with
    | some e => (e.status == 0, .idle)
    | none => (false, .idle)

/-- Claim C3: when no CommandComplete/CommandStatus event with the
outstanding command's code arrives within the 1000 ms bound, `sendCommand`
returns failure, the correlation state is back to Idle, and a new command is
accepted immediately afterward.  Also records that the bound constant is
1000 ms, as declared in HciAdapter.h. -/
theorem sendCommand_timeout_resets (code now : Nat) (events : List AckEvent)
    (hnone : ∀ e ∈ events, ¬(e.commandCode = code ∧ e.arrivalMS ≤ now + 1000)) :
    sendCommandModel .idle code now events = (false, .idle)
    ∧ acceptsCommand (sendCommandModel .idle code now events).2 = true
    ∧ kMaxEventWaitTimeMS = 1000 := by
  have hfind : events.find? (ackMatches code (now + kMaxEventWaitTimeMS)) = none := by
    rw [List.find?_eq_none]
    intro e he
    have := hnone e he
    simp only [ackMatches, kMaxEventWaitTimeMS, Bool.and_eq_true, beq_iff_eq,
      decide_eq_true_eq]
    exact this
  refine ⟨?_, ?_, rfl⟩ <;> simp [sendCommandModel, hfind, acceptsCommand]

/-- Witness for C3: a wait for command code 5 starting at time 0, with the
only delivered acknowledgement carrying a different code, fails and leaves
the correlator accepting the next command. -/
theorem sendCommand_timeout_resets_witness :
    sendCommandModel .idle 5 0 [⟨10, 6, 0⟩] = (false, .idle)
    ∧ acceptsCommand (sendCommandModel .idle 5 0 [⟨10, 6, 0⟩]).2 = true
    ∧ kMaxEventWaitTimeMS = 1000 :=
  sendCommand_timeout_resets 5 0 [⟨10, 6, 0⟩] (by decide)

/-! ## Mgmt command facade (Mgmt.cpp)

A command frame is the header plus the payload bytes that follow it.  The
result of `HciAdapter::getInstance().sendCommand(frame)` is modelled by an
oracle `env : Frame → Bool` supplied by the environment (the adapter and the
controller behind it). -/

structure Frame where
  header : HciHeader
  payload : List Nat
deriving Repr, DecidableEq

/-- The frame invariant of spec section 3: the header's `dataSize`
(payloadLength) equals the number of bytes following the header. -/
def frameInvariant (f : Frame) : Prop := f.header.dataSize = f.payload.length

/-- Modelled from the spec: the Mgmt command-code enumerators
(ESetPoweredCommand and friends are declared in Mgmt.h, which is not among
the source files); the values are the management-protocol command codes from
the documented range 0x0001-0x0043.  No claim depends on the particular
values, only on which builder uses which symbolic code. -/
def ESetPoweredCommand : Nat := 0x0005
def ESetDiscoverableCommand : Nat := 0x0006
def ESetLocalNameCommand : Nat := 0x000F
def ESetAdvertisingCommand : Nat := 0x0029
def EReadAdvertisingFeaturesCommand : Nat := 0x003D
def EAddAdvertisingCommand : Nat := 0x003E
def ERemoveAdvertisingCommand : Nat := 0x003F

-- Mgmt.h constants, modelled from the spec: name fields are at most
-- 248 / 10 characters (249- and 11-byte buffers including the terminator).
def kMaxAdvertisingNameLength : Nat := 248
def kMaxAdvertisingShortNameLength : Nat := 10

/-- Mgmt::truncateName (Mgmt.cpp lines 367-375): a string no longer than the
maximum is returned unchanged, otherwise its first
`kMaxAdvertisingNameLength` characters. -/
def truncateName (name : List Nat) : List Nat :=
  if name.length ≤ kMaxAdvertisingNameLength then name
  else name.take kMaxAdvertisingNameLength

/-- Mgmt::truncateShortName (Mgmt.cpp lines 379-387). -/
def truncateShortName (name : List Nat) : List Nat :=
  if name.length ≤ kMaxAdvertisingShortNameLength then name
  else name.take kMaxAdvertisingShortNameLength

-- The C-string view of a byte list: what c_str-based copying (snprintf)
-- reads, the bytes up to the first NUL.
def cstr (bytes : List Nat) : List Nat := bytes.takeWhile (fun b => b ≠ 0)

-- A fixed-size field: the first n bytes, zero-filled to exactly n (the
-- source memsets the field to 0 before copying into it; for the memcpy-based
-- copies the bytes past the string's terminator are modelled as 0).
def padTo (n : Nat) (bytes : List Nat) : List Nat :=
  bytes.take n ++ List.replicate (n - (bytes.take n).length) 0

/-- Mgmt::setState's request (Mgmt.cpp lines 117-137): header plus a single
state byte; dataSize = sizeof(SRequest) - sizeof(HciHeader) = 1. -/
def setStateFrame (commandCode controllerId newState : Nat) : Frame :=
  { header := { code := commandCode, controllerId := controllerId, dataSize := 1 },
    payload := [newState] }

/-- Mgmt::setName's request (Mgmt.cpp lines 51-81): the truncated name and
short name, snprintf-copied into zeroed 249- and 11-byte fields;
dataSize = 260. -/
def setNameFrame (controllerIndex : Nat) (name shortName : List Nat) : Frame :=
  { header := { code := ESetLocalNameCommand, controllerId := controllerIndex,
                dataSize := 260 },
    payload := padTo 249 (cstr (truncateName name))
               ++ padTo 11 (cstr (truncateShortName shortName)) }

/-- Mgmt::setDiscoverable's request (Mgmt.cpp lines 88-110): a discoverable
byte and a u16 timeout; dataSize = 3. -/
def setDiscoverableFrame (controllerIndex disc timeout : Nat) : Frame :=
  { header := { code := ESetDiscoverableCommand, controllerId := controllerIndex,
                dataSize := 3 },
    payload := [disc] ++ u16le timeout }

def Mgmt.setState (env : Frame → Bool) (commandCode controllerId newState : Nat) :
    Bool :=
  env (setStateFrame commandCode controllerId newState)

def Mgmt.setName (env : Frame → Bool) (controllerIndex : Nat)
    (name shortName : List Nat) : Bool :=
  env (setNameFrame controllerIndex name shortName)

def Mgmt.setDiscoverable (env : Frame → Bool) (controllerIndex disc timeout : Nat) :
    Bool :=
  env (setDiscoverableFrame controllerIndex disc timeout)

/-! ### setAdvertising (Mgmt.cpp lines 222-359) -/

-- AdvertisingFeaturesSettings flag bits (HciAdapter.h lines 97-109)
def EAdvSwitchConnectable : Nat := 1
def EAdvDiscoverable : Nat := 2
def EAdvLimitedDiscoverable : Nat := 4
def EAdvAddFlags : Nat := 8
def EAdvAddTX : Nat := 16
def EAdvAddAppearance : Nat := 32
def EAdvAddLocalName : Nat := 64

/-- The flag set requested by setAdvertising (Mgmt.cpp lines 272-273). -/
def requestedAdvMask : Nat :=
  EAdvSwitchConnectable ||| EAdvDiscoverable ||| EAdvAddFlags ||| EAdvAddTX

/-- HciAdapter::AdvertisingFeatures (HciAdapter.h lines 1141-1173): the cache
snapshot setAdvertising reads; `instanceRef` has 5 entries in the packed
struct. -/
structure AdvertisingFeatures where
  supportedFlags : Nat
  maxAdv : Nat
  maxScanRsp : Nat
  maxInstances : Nat
  numInstances : Nat
  instanceRef : List Nat
deriving Repr, DecidableEq

def removeAdvFrame (controllerIndex instanceNum : Nat) : Frame :=
  { header := { code := ERemoveAdvertisingCommand, controllerId := controllerIndex,
                dataSize := 1 },
    payload := [instanceNum] }

/-- The 23-byte advertising-data buffer (Mgmt.cpp lines 318-327): a 17-byte
full-name element (type 0x09, 16 value bytes memcpy-ed from name) followed by
a 4-byte class-of-device element (type 0x0D, 3 value bytes). -/
def advDataOf (name : List Nat) : List Nat :=
  17 :: 0x09 :: (padTo 16 name ++ (4 :: 0x0D :: ([0x20, 0x04, 0x14] ++ [])))

/-- The 27-byte scan-response buffer (Mgmt.cpp lines 329-353): a 17-byte
incomplete-128-bit-service-list element (type 0x06, 16 UUID bytes) followed
by an 8-byte short-name element (type 0x08, 7 value bytes memcpy-ed from
name -- deliberately from `name`, not `shortName`). -/
def scanRespOf (name : List Nat) : List Nat :=
  17 :: 0x06 ::
    ([0x8e, 0x79, 0x34, 0xbd, 0xf0, 0x6d, 0x48, 0xf6,
      0x86, 0x04, 0x83, 0xc9, 0x4e, 0x0e, 0xc8, 0xf9]
     ++ (8 :: 0x08 :: (padTo 7 name ++ [])))

/-- The AddAdvertising request (Mgmt.cpp lines 294-355): instance 1, the
intersected flags, zero duration and timeout, the declared buffer lengths 23
and 27, then the two buffers; dataSize = sizeof(SRequest) - sizeof header
= 61.  The flags are `wantedFeatures.masks &= availableFeatures
.supportedFlags.masks` (line 283), serialized little-endian by toNetwork. -/
def addAdvFrame (controllerIndex supported : Nat) (name : List Nat) : Frame :=
  { header := { code := EAddAdvertisingCommand, controllerId := controllerIndex,
                dataSize := 61 },
    payload := [1] ++ u32le (requestedAdvMask &&& supported)
               ++ u16le 0 ++ u16le 0 ++ [23, 27]
               ++ advDataOf name ++ scanRespOf name }

/-- The removal loop (Mgmt.cpp lines 245-267): one RemoveAdvertising command
per collected instance number, aborting on the first failure. -/
def removeLoop (env : Frame → Bool) (controllerIndex : Nat) :
    List Nat → Bool × List Frame
  | [] => (true, [])
  | i :: rest =>
    let fr := removeAdvFrame controllerIndex i
    if env fr then
      let r := removeLoop env controllerIndex rest
      (r.1, fr :: r.2)
    else (false, [fr])

/-- The ReadAdvertisingFeatures request (Mgmt.cpp lines 231-234): a bare
header with dataSize 0. -/
def readAdvFeaturesFrame (controllerIndex : Nat) : Frame :=
  { header := { code := EReadAdvertisingFeaturesCommand,
                controllerId := controllerIndex, dataSize := 0 },
    payload := [] }

/-- Mgmt::setAdvertising (Mgmt.cpp lines 222-359).  Returns the boolean
result together with the frames transmitted, in order.  `features` is the
AdvertisingFeatures snapshot `getAdvertisingFeatures()` returns at line 241.
Note that `shortName` is accepted but never read (lines 351-353), and that
the non-enabling path falls through to `return false` even when every step
succeeded. -/
def Mgmt.setAdvertising (env : Frame → Bool) (controllerIndex : Nat)
    (features : AdvertisingFeatures) (newState : Bool)
    (name shortName : List Nat) : Bool × List Frame :=
  let f1 := setStateFrame ESetAdvertisingCommand controllerIndex 0
  if !env f1 then (false, [f1])
  else
    let f2 := readAdvFeaturesFrame controllerIndex
    if !env f2 then (false, [f1, f2])
    else
      let instanceNums :=
        (List.range features.numInstances).map (fun i => features.instanceRef.getD i 0)
      let rem := removeLoop env controllerIndex instanceNums
      if !rem.1 then (false, [f1, f2] ++ rem.2)
      else if newState then
        let fr := addAdvFrame controllerIndex features.supportedFlags name
        (env fr, [f1, f2] ++ rem.2 ++ [fr])
      else (false, [f1, f2] ++ rem.2)

/-! ### AD-structure well-formedness (spec section 6)

An advertising-data / scan-response buffer is a concatenation of elements
`{length byte, type byte, value bytes}` where each length byte counts the
type byte plus the value bytes; `adChunks` checks that the length prefixes
exactly account for the whole buffer. -/

def adChunks : List Nat → Bool
  | [] => true
  | len :: rest =>
    decide (1 ≤ len) && decide (len ≤ rest.length) && adChunks (rest.drop len)
termination_by l => l.length
decreasing_by
  simp only [List.length_drop, List.length_cons]
  omega

/-! ### Helper lemmas -/

lemma padTo_length (n : Nat) (l : List Nat) : (padTo n l).length = n := by
  simp [padTo]

lemma adChunks_nil : adChunks [] = true := by
  simp [adChunks]

/-- One well-formed AD element at the head of a buffer: a length byte
counting the type byte plus the value bytes, followed by the rest. -/
lemma adChunks_element (ty : Nat) (v rest : List Nat) :
    adChunks ((v.length + 1) :: ty :: (v ++ rest)) = adChunks rest := by
  have h2 : v.length + 1 ≤ (ty :: (v ++ rest)).length := by
    simp [List.length_cons, List.length_append]
  have h3 : (ty :: (v ++ rest)).drop (v.length + 1) = rest := by
    rw [List.drop_succ_cons]
    exact List.drop_left v rest
  simp only [adChunks, h3]
  have d1 : (1 : Nat) ≤ v.length + 1 := by omega
  simp [d1, h2]

lemma advDataOf_length (name : List Nat) : (advDataOf name).length = 23 := by
  simp [advDataOf, padTo_length]

lemma scanRespOf_length (name : List Nat) : (scanRespOf name).length = 27 := by
  simp [scanRespOf, padTo_length]

lemma adChunks_advData (name : List Nat) : adChunks (advDataOf name) = true := by
  have h1 := adChunks_element 0x09 (padTo 16 name)
    (4 :: 0x0D :: ([0x20, 0x04, 0x14] ++ []))
  rw [padTo_length] at h1
  norm_num at h1
  have h2 := adChunks_element 0x0D [0x20, 0x04, 0x14] []
  norm_num at h2
  simp only [advDataOf, List.append_nil]
  rw [h1, h2]
  exact adChunks_nil

lemma adChunks_scanResp (name : List Nat) : adChunks (scanRespOf name) = true := by
  have h1 := adChunks_element 0x06
    [0x8e, 0x79, 0x34, 0xbd, 0xf0, 0x6d, 0x48, 0xf6,
     0x86, 0x04, 0x83, 0xc9, 0x4e, 0x0e, 0xc8, 0xf9]
    (8 :: 0x08 :: (padTo 7 name ++ []))
  norm_num at h1
  have h2 := adChunks_element 0x08 (padTo 7 name) []
  rw [padTo_length] at h2
  norm_num at h2
  simp only [scanRespOf, List.append_nil, List.cons_append, List.nil_append]
  rw [h1, h2]
  exact adChunks_nil

lemma removeLoop_ok (env : Frame → Bool) (ci : Nat) (henv : ∀ f, env f = true) :
    ∀ l, removeLoop env ci l = (true, l.map (removeAdvFrame ci)) := by
  intro l
  induction l with
  | nil => rfl
  | cons i rest ih => simp [removeLoop, henv, ih]

lemma removeLoop_frames (env : Frame → Bool) (ci : Nat) :
    ∀ l f, f ∈ (removeLoop env ci l).2 → ∃ i, f = removeAdvFrame ci i := by
  intro l
  induction l with
  | nil => simp [removeLoop]
  | cons i rest ih =>
    intro f hf
    by_cases h : env (removeAdvFrame ci i)
    · simp only [removeLoop, h, if_true] at hf
      rcases List.mem_cons.mp hf with h1 | h2
      · exact ⟨i, h1⟩
      · exact ih f h2
    · simp only [removeLoop, h, if_false] at hf
      exact ⟨i, List.mem_singleton.mp hf⟩

lemma addAdvFrame_invariant (ci s : Nat) (name : List Nat) :
    frameInvariant (addAdvFrame ci s name) := by
  simp [frameInvariant, addAdvFrame, u32le, u16le,
    advDataOf_length, scanRespOf_length]

/-- Every frame setAdvertising transmits, on any path, is one of the four
builder shapes. -/
lemma setAdvertising_frame_shapes (env : Frame → Bool) (ci : Nat)
    (features : AdvertisingFeatures) (st : Bool) (name sn : List Nat) :
    ∀ f ∈ (Mgmt.setAdvertising env ci features st name sn).2,
      f = setStateFrame ESetAdvertisingCommand ci 0
      ∨ f = readAdvFeaturesFrame ci
      ∨ (∃ i, f = removeAdvFrame ci i)
      ∨ f = addAdvFrame ci features.supportedFlags name := by
  intro f hf
  simp only [Mgmt.setAdvertising] at hf
  by_cases h1 : env (setStateFrame ESetAdvertisingCommand ci 0)
  · simp only [h1, Bool.not_true, Bool.false_eq_true, if_false] at hf
    by_cases h2 : env (readAdvFeaturesFrame ci)
    · simp only [h2, Bool.not_true, Bool.false_eq_true, if_false] at hf
      by_cases h3 : (removeLoop env ci
          ((List.range features.numInstances).map
            (fun i => features.instanceRef.getD i 0))).1
      · simp only [h3, Bool.not_true, Bool.false_eq_true, if_false] at hf
        cases st with
        | true =>
          simp only [if_true] at hf
          rcases List.mem_append.mp hf with h4 | h4
          · rcases List.mem_append.mp h4 with h5 | h5
            · rcases List.mem_cons.mp h5 with h6 | h6
              · exact Or.inl h6
              · exact Or.inr (Or.inl (List.mem_singleton.mp h6))
            · exact Or.inr (Or.inr (Or.inl (removeLoop_frames env ci _ f h5)))
          · exact Or.inr (Or.inr (Or.inr (List.mem_singleton.mp h4)))
        | false =>
          simp only [Bool.false_eq_true, if_false] at hf
          rcases List.mem_append.mp hf with h4 | h4
          · rcases List.mem_cons.mp h4 with h5 | h5
            · exact Or.inl h5
            · exact Or.inr (Or.inl (List.mem_singleton.mp h5))
          · exact Or.inr (Or.inr (Or.inl (removeLoop_frames env ci _ f h4)))
      · simp only [Bool.not_eq_true] at h3
        simp only [h3, Bool.not_false, if_true] at hf
        rcases List.mem_append.mp hf with h4 | h4
        · rcases List.mem_cons.mp h4 with h5 | h5
          · exact Or.inl h5
          · exact Or.inr (Or.inl (List.mem_singleton.mp h5))
        · exact Or.inr (Or.inr (Or.inl (removeLoop_frames env ci _ f h4)))
    · simp only [h2, Bool.not_false, if_true] at hf
      rcases List.mem_cons.mp hf with h5 | h5
      · exact Or.inl h5
      · exact Or.inr (Or.inl (List.mem_singleton.mp h5))
  · simp only [h1, Bool.not_false, if_true] at hf
    exact Or.inl (List.mem_singleton.mp hf)

/-! ### Theorems: Command Facade claims -/

/-- Claim C4: in setAdvertising(true, ...), the advertising-instance flags
value sent to the controller equals the bitwise AND of the requested flag set
and the hardware-supported flag set: the AddAdvertising frame is transmitted
carrying exactly `requestedAdvMask &&& supported`, serialized little-endian
right after the instance byte, and bit-by-bit every supported requested flag
is kept while no unrequested or unsupported flag appears. -/
theorem setAdvertising_flags_intersection (env : Frame → Bool) (ci : Nat)
    (features : AdvertisingFeatures) (name sn : List Nat)
    (henv : ∀ f, env f = true) :
    addAdvFrame ci features.supportedFlags name
      ∈ (Mgmt.setAdvertising env ci features true name sn).2
    ∧ (addAdvFrame ci features.supportedFlags name).payload.take 5
        = 1 :: u32le (requestedAdvMask &&& features.supportedFlags)
    ∧ (∀ i, (requestedAdvMask &&& features.supportedFlags).testBit i
        = (requestedAdvMask.testBit i && features.supportedFlags.testBit i)) := by
  refine ⟨?_, rfl, fun i => Nat.testBit_land requestedAdvMask features.supportedFlags i⟩
  simp only [Mgmt.setAdvertising, henv, Bool.not_true, Bool.false_eq_true, if_false,
    removeLoop_ok env ci henv, if_true]
  simp [List.mem_append]

/-- Witness for C4: with an all-true adapter oracle and hardware that
supports flags 0x0B, the AddAdvertising frame carrying 27 AND 0x0B is among
the transmitted frames. -/
theorem setAdvertising_flags_intersection_witness :
    addAdvFrame 0 11 [] ∈ (Mgmt.setAdvertising (fun _ => true) 0
      ⟨11, 0, 0, 0, 0, []⟩ true [] []).2
    ∧ (requestedAdvMask &&& (11 : Nat)).testBit 2
        = (requestedAdvMask.testBit 2 && (11 : Nat).testBit 2) :=
  ⟨(setAdvertising_flags_intersection (fun _ => true) 0 ⟨11, 0, 0, 0, 0, []⟩ [] []
      (fun _ => rfl)).1,
   (setAdvertising_flags_intersection (fun _ => true) 0 ⟨11, 0, 0, 0, 0, []⟩ [] []
      (fun _ => rfl)).2.2 2⟩

/-- Claim C5: truncateName returns its input unchanged when it is at most
248 characters long and otherwise exactly its first 248 characters;
truncateShortName does the same with a 10-character bound; and setName
applies these truncations when building the command payload, its result
being solely the send outcome -- truncation is never reported as an
error. -/
theorem truncateName_setName_spec (name shortName : List Nat)
    (env : Frame → Bool) (ci : Nat) :
    (name.length ≤ 248 → truncateName name = name)
    ∧ (248 < name.length → truncateName name = name.take 248)
    ∧ (shortName.length ≤ 10 → truncateShortName shortName = shortName)
    ∧ (10 < shortName.length → truncateShortName shortName = shortName.take 10)
    ∧ Mgmt.setName env ci name shortName = env (setNameFrame ci name shortName)
    ∧ (setNameFrame ci name shortName).payload
        = padTo 249 (cstr (truncateName name))
          ++ padTo 11 (cstr (truncateShortName shortName)) := by
  refine ⟨fun h => ?_, fun h => ?_, fun h => ?_, fun h => ?_, rfl, rfl⟩
  · simp [truncateName, kMaxAdvertisingNameLength, h]
  · simp [truncateName, kMaxAdvertisingNameLength]
  · simp [truncateShortName, kMaxAdvertisingShortNameLength, h]
  · simp [truncateShortName, kMaxAdvertisingShortNameLength]

/-- Witness for C5: a 300-character name is cut to its first 248 characters
and an 8-character name is returned unchanged. -/
theorem truncateName_setName_spec_witness :
    truncateName (List.replicate 300 65) = (List.replicate 300 65).take 248
    ∧ truncateShortName (List.replicate 8 65) = List.replicate 8 65 :=
  ⟨(truncateName_setName_spec (List.replicate 300 65) (List.replicate 8 65)
      (fun _ => true) 0).2.1 (by norm_num),
   (truncateName_setName_spec (List.replicate 300 65) (List.replicate 8 65)
      (fun _ => true) 0).2.2.1 (by norm_num)⟩

/-- Claim C6: every command frame built by the facade -- setState, setName,
setDiscoverable, and each frame setAdvertising transmits on any path --
satisfies the frame invariant: the header's dataSize (payloadLength) equals
the number of payload bytes following the 6-byte header. -/
theorem facade_frames_payloadLength (cc cid s ci d t : Nat)
    (name sn : List Nat) (env : Frame → Bool)
    (features : AdvertisingFeatures) (st : Bool) :
    frameInvariant (setStateFrame cc cid s)
    ∧ frameInvariant (setNameFrame ci name sn)
    ∧ frameInvariant (setDiscoverableFrame ci d t)
    ∧ ∀ f ∈ (Mgmt.setAdvertising env ci features st name sn).2,
        frameInvariant f := by
  refine ⟨rfl, ?_, rfl, ?_⟩
  · simp [frameInvariant, setNameFrame, padTo_length]
  · intro f hf
    rcases setAdvertising_frame_shapes env ci features st name sn f hf with
      h | h | ⟨i, h⟩ | h
    · exact h ▸ rfl
    · exact h ▸ rfl
    · exact h ▸ rfl
    · exact h ▸ addAdvFrame_invariant ci features.supportedFlags name

/-- Witness for C6: with an all-true oracle, a trivial features snapshot and
the enabling path, the first transmitted frame of setAdvertising satisfies
the invariant. -/
theorem facade_frames_payloadLength_witness :
    frameInvariant (setStateFrame ESetAdvertisingCommand 0 0) :=
  (facade_frames_payloadLength 5 0 1 0 1 0 [] [] (fun _ => true)
      ⟨0, 0, 0, 0, 0, []⟩ true).2.2.2
    (setStateFrame ESetAdvertisingCommand 0 0) (by decide)

/-- Claim C8: the advertising-data and scan-response buffers assembled by
setAdvertising(true, ...) are each a concatenation of length-prefixed,
type-tagged AD-structure elements whose length prefixes exactly account for
the buffer's bytes, and each buffer is at most 31 bytes (23 and 27 here);
the two buffers sit verbatim at the tail of the AddAdvertising payload. -/
theorem setAdvertising_ad_structures (name : List Nat) (ci s : Nat) :
    adChunks (advDataOf name) = true
    ∧ (advDataOf name).length = 23
    ∧ (advDataOf name).length ≤ 31
    ∧ adChunks (scanRespOf name) = true
    ∧ (scanRespOf name).length = 27
    ∧ (scanRespOf name).length ≤ 31
    ∧ (addAdvFrame ci s name).payload.drop 11 = advDataOf name ++ scanRespOf name :=
  ⟨adChunks_advData name,
   advDataOf_length name,
   by rw [advDataOf_length]; omega,
   adChunks_scanResp name,
   scanRespOf_length name,
   by rw [scanRespOf_length]; omega,
   rfl⟩

/-- Claim C9: setAdvertising(false, name, shortName) returns false even when
every issued step -- disabling automatic advertising, reading advertising
features, removing each active instance -- succeeds: the non-enabling path
falls through to the final return false. -/
theorem setAdvertising_disable_returns_false (env : Frame → Bool) (ci : Nat)
    (features : AdvertisingFeatures) (name sn : List Nat)
    (henv : ∀ f, env f = true) :
    (Mgmt.setAdvertising env ci features false name sn).1 = false := by
  simp [Mgmt.setAdvertising, henv, removeLoop_ok env ci henv]

/-- Witness for C9: with an all-true oracle and one active instance to
remove, disabling still returns false. -/
theorem setAdvertising_disable_returns_false_witness :
    (Mgmt.setAdvertising (fun _ => true) 0 ⟨27, 31, 31, 5, 1, [1, 0, 0, 0, 0]⟩
        false [] []).1 = false :=
  setAdvertising_disable_returns_false (fun _ => true) 0
    ⟨27, 31, 31, 5, 1, [1, 0, 0, 0, 0]⟩ [] [] (fun _ => rfl)

/-- Claim C10: the result and the transmitted frames of setAdvertising are
independent of the shortName argument: the body never reads it (the
short-name AD element is filled from the first bytes of `name`), so two
calls differing only in shortName coincide exactly. -/
theorem setAdvertising_shortName_noninterference (env : Frame → Bool)
    (ci : Nat) (features : AdvertisingFeatures) (st : Bool)
    (name sn1 sn2 : List Nat) :
    Mgmt.setAdvertising env ci features st name sn1
      = Mgmt.setAdvertising env ci features st name sn2 := rfl

end GGK
